import Mathlib

/-!
# Verification of the psydk window/frame presentation subsystem

This file gives a shallow embedding of the parts of the `psydk` repository
that the specification's testable properties talk about:

* the `Window::present` repeat/pedantic/frame-id logic
  (`src/psydk/src/visual/window.rs`),
* the color input normalization and sRGB transfer functions
  (`src/psydk/src/visual/color.rs`, `src/renderer/src/colors.rs`),
* the gamma/LUT compositor construction and resize logic
  (`src/renderer/src/wgpu_renderer.rs`),
* the image stimulus hit test (`src/psydk/src/visual/stimuli/image.rs`).

`f64`/`f32` arithmetic is idealized: the repeat-frame computation (which uses
only `+`, `-`, `*`, `/`, `round` on values far from any floating-point hazard)
is modelled over `ℚ`, and the sRGB transfer functions (which use `powf`) over
`ℝ` with `Real.rpow`.
-/

namespace Psydk

/-- Rust's `f64::round`: round half away from zero, modelled on `ℚ`. -/
def rustRound (x : ℚ) : ℤ :=
  if 0 ≤ x then ⌊x + 1 / 2⌋ else -⌊-x + 1 / 2⌋

/-- Rust's saturating `as u32` cast from a rounded `f64` value. -/
def u32Cast (i : ℤ) : ℕ :=
  min i.toNat (2 ^ 32 - 1)

/-- Error taxonomy relevant to `present` (`PsydkError` in `errors.rs`,
which is declared outside `src/`; the `ParameterError` variant is the one
constructed in `window.rs`). -/
inductive PsydkErrorM where
  | parameterError (msg : String)
  deriving DecidableEq, Repr

/-- One observable GPU-side action of the present loop, in program order
(`Window::present`, `window.rs` lines 284-373, non-dx12 path). -/
inductive GpuEvent where
  | acquireTexture
  | createScene (w h : ℕ)
  | drawStimulus (id : ℕ)
  | renderScene
  | compositorPass
  | presentSurface
  deriving DecidableEq, Repr

/-- The frame bookkeeping fields of `WindowState` (`window.rs` lines 112-144)
that `Window::present` reads or writes: the window size, the queue of
submitted frame ids, the keys of the `frame_callbacks` map (insertion order),
and the `last_frame_id` counter (initialized to `0` in `app.rs`). -/
structure WindowStateP where
  size : ℕ × ℕ
  frameQueue : List ℕ
  frameCallbackIds : List ℕ
  lastFrameId : ℕ
  deriving DecidableEq, Repr

/-- The observable outcome of one `Window::present` call: the returned
`PsydkResult<Option<Instant>>` (timestamps as `ℕ`), the window state after
the call, and the ordered trace of GPU actions performed. -/
structure PresentOutcome where
  result : Except PsydkErrorM (Option ℕ)
  state : WindowStateP
  events : List GpuEvent
  deriving Repr

/-- The GPU actions of one iteration of the present loop, in the order the
body of `for i in 0..repeat_frames` performs them: acquire the swapchain
texture, create a fresh scene, draw every stimulus of the frame in list
order, rasterize the scene to the intermediate texture, run the compositor
pass, present the surface texture. -/
def iterationEvents (size : ℕ × ℕ) (stimuli : List ℕ) : List GpuEvent :=
  [GpuEvent.acquireTexture, GpuEvent.createScene size.1 size.2] ++
    stimuli.map GpuEvent.drawStimulus ++
    [GpuEvent.renderScene, GpuEvent.compositorPass, GpuEvent.presentSurface]

/-- `n` sequential copies of an iteration trace (`for i in 0..n`). -/
def iterTraceRep (it : List GpuEvent) : ℕ → List GpuEvent
  | 0 => []
  | n + 1 => it ++ iterTraceRep it n

/-- `Window::present` (`window.rs` lines 203-386), non-dx12 path.

Arguments mirror the source: `stimuli` is the frame's stimulus list (by
numeric id, in insertion order), `repeat_frames`/`repeat_time`/`pedantic`
are the call arguments, `configPedantic` is `config.pedantic` (default
`true` in `config.rs`), `refreshRate` the monitor's reported refresh rate,
and `now` the current time observed at the end of the call.

Note the source's pedantic check is
`(f_repeat_frames - f_repeat_frames).round().abs() > 0.0001`:
it subtracts `f_repeat_frames` from itself, and is embedded verbatim. -/
def present (st : WindowStateP) (stimuli : List ℕ)
    (repeat_frames : Option ℕ) (repeat_time : Option ℚ)
    (pedantic : Option Bool) (configPedantic : Bool)
    (refreshRate : ℚ) (now : ℕ) : PresentOutcome :=
  if repeat_frames.isSome ∧ repeat_time.isSome then
    { result := Except.error (PsydkErrorM.parameterError
        "You can only specify one of repeat_frames or repeat_time")
      state := st
      events := [] }
  else
    let pedantic := pedantic.getD configPedantic
    let f_repeat_frames : ℚ :=
      match repeat_time with
      | some t => t / (1 / refreshRate)
      | none => ((repeat_frames.getD 1 : ℕ) : ℚ)
    if pedantic ∧ 1 / 10000 < |((rustRound (f_repeat_frames - f_repeat_frames) : ℤ) : ℚ)| then
      { result := Except.error (PsydkErrorM.parameterError
          "repeat_time is not a multiple of the monitor frame time")
        state := st
        events := [] }
    else
      let repeatFrames : ℕ := u32Cast (rustRound f_repeat_frames)
      let newFrameId := st.lastFrameId + 1
      { result := Except.ok (some now)
        state :=
          { st with
            frameQueue := st.frameQueue ++ [newFrameId]
            frameCallbackIds := st.frameCallbackIds ++ [newFrameId] }
        events := iterTraceRep (iterationEvents st.size stimuli) repeatFrames }

theorem rustRound_natCast (n : ℕ) : rustRound (n : ℚ) = n := by
  unfold rustRound
  rw [if_pos (by positivity)]
  rw [show ((n : ℚ) + 1 / 2) = 1 / 2 + ((n : ℤ) : ℚ) by push_cast; ring]
  rw [Int.floor_add_int]
  norm_num

theorem rustRound_three_halves : rustRound (3 / 2 : ℚ) = 2 := by
  unfold rustRound
  rw [if_pos (by norm_num)]
  norm_num [Int.floor_eq_iff]

theorem rustRound_sub_self (x : ℚ) : rustRound (x - x) = 0 := by
  simp [rustRound]
  norm_num

/-! ## Color model (`src/psydk/src/visual/color.rs`, `src/renderer/src/colors.rs`)

Channel values are idealized as real numbers. -/

/-- `LinRgba` (`color.rs` lines 30-35): a linear RGBA color. -/
structure LinRgba where
  r : ℝ
  g : ℝ
  b : ℝ
  a : ℝ

/-- `LinRgba::new` (`color.rs` line 44). -/
def LinRgba.new (r g b a : ℝ) : LinRgba := ⟨r, g, b, a⟩

/-- `LinRgba::srgb_to_lin_rgb` (`color.rs` lines 49-55): the sRGB decode
(piecewise transfer function, threshold `0.04045`). -/
noncomputable def srgb_to_lin_rgb (c : ℝ) : ℝ :=
  if c ≤ 0.04045 then c / 12.92 else ((c + 0.055) / 1.055) ^ (2.4 : ℝ)

/-- `LinRgba::from_srgba` (`color.rs` lines 57-65). -/
noncomputable def LinRgba.from_srgba (r g b a : ℝ) : LinRgba :=
  ⟨srgb_to_lin_rgb r, srgb_to_lin_rgb g, srgb_to_lin_rgb b, a⟩

/-- The result of `csscolorparser::parse` on a CSS color string: sRGB-encoded
channels plus alpha. The parser is an external crate; we model a successfully
parsed color by its channels. -/
structure CssParsed where
  r : ℝ
  g : ℝ
  b : ℝ
  a : ℝ

/-- `LinRgba::from_str` (`color.rs` lines 67-75) after the parse succeeded:
each parsed channel is sRGB-decoded, alpha is taken as-is. -/
noncomputable def LinRgba.fromStr (p : CssParsed) : LinRgba :=
  ⟨srgb_to_lin_rgb p.r, srgb_to_lin_rgb p.g, srgb_to_lin_rgb p.b, p.a⟩

/-- A Python-side color argument, as seen by
`IntoLinRgba::extract_bound` (`color.rs` lines 131-156). A Python `LinRgba`
object converts to a tuple of its four components (`IntoPyObject`,
`color.rs` lines 210-219), so the "direct linear-RGBA value" form arrives as
a 4-tuple; the other forms are a 3-tuple, a 4-tuple, and a CSS string
(modelled by its parse result). -/
inductive PyColorInput where
  | tuple3 (r g b : ℝ)
  | tuple4 (r g b a : ℝ)
  | cssColor (p : CssParsed)

/-- `IntoLinRgba::extract_bound` (`color.rs` lines 131-156), with the branch
order of the source: a tuple extracts through `LinRgba`'s own `FromPyObject`
(`color.rs` lines 222-239, alpha defaulting to `1.0` for a 3-tuple, channels
taken as already linear), and a string goes through `LinRgba::from_str`. -/
noncomputable def extract_bound : PyColorInput → LinRgba
  | PyColorInput.tuple3 r g b => LinRgba.new r g b 1
  | PyColorInput.tuple4 r g b a => LinRgba.new r g b a
  | PyColorInput.cssColor p => LinRgba.fromStr p

/-- `lin2srgb` (`renderer/src/colors.rs` lines 118-124) and equally
`srgb_inverse_eotf` (`renderer/src/wgpu_renderer.rs` lines 417-423): the sRGB
encode (piecewise transfer function, threshold `0.0031308`). -/
noncomputable def lin2srgb (c : ℝ) : ℝ :=
  if c ≤ 0.0031308 then 12.92 * c else 1.055 * c ^ ((1 : ℝ) / 2.4) - 0.055

/-! Rational-power bounds used to settle the sRGB branch analysis. -/

theorem rpow_ratio_le {a m : ℝ} {p q : ℕ} (ha : 0 ≤ a) (hm : 0 ≤ m)
    (hq : 0 < q) (h : a ^ p ≤ m ^ q) : a ^ ((p : ℝ) / (q : ℝ)) ≤ m := by
  have hq' : ((q : ℕ) : ℝ) ≠ 0 := Nat.cast_ne_zero.mpr hq.ne'
  have h1 : a ^ ((p : ℝ) / (q : ℝ)) = (a ^ p) ^ ((1 : ℝ) / (q : ℝ)) := by
    rw [← Real.rpow_natCast a p, ← Real.rpow_mul ha, mul_one_div]
  have h2 : ((m ^ q : ℝ)) ^ ((1 : ℝ) / (q : ℝ)) = m := by
    rw [← Real.rpow_natCast m q, ← Real.rpow_mul hm, mul_one_div, div_self hq',
      Real.rpow_one]
  rw [h1, ← h2]
  exact Real.rpow_le_rpow (pow_nonneg ha p) h (by positivity)

theorem le_rpow_ratio {a m : ℝ} {p q : ℕ} (ha : 0 ≤ a) (hm : 0 ≤ m)
    (hq : 0 < q) (h : m ^ q ≤ a ^ p) : m ≤ a ^ ((p : ℝ) / (q : ℝ)) := by
  have hq' : ((q : ℕ) : ℝ) ≠ 0 := Nat.cast_ne_zero.mpr hq.ne'
  have h1 : a ^ ((p : ℝ) / (q : ℝ)) = (a ^ p) ^ ((1 : ℝ) / (q : ℝ)) := by
    rw [← Real.rpow_natCast a p, ← Real.rpow_mul ha, mul_one_div]
  have h2 : ((m ^ q : ℝ)) ^ ((1 : ℝ) / (q : ℝ)) = m := by
    rw [← Real.rpow_natCast m q, ← Real.rpow_mul hm, mul_one_div, div_self hq',
      Real.rpow_one]
  rw [h1, ← h2]
  exact Real.rpow_le_rpow (pow_nonneg hm q) h (by positivity)

theorem lt_rpow_ratio {a m : ℝ} {p q : ℕ} (ha : 0 ≤ a) (hm : 0 ≤ m)
    (hq : 0 < q) (h : m ^ q < a ^ p) : m < a ^ ((p : ℝ) / (q : ℝ)) := by
  have hq' : ((q : ℕ) : ℝ) ≠ 0 := Nat.cast_ne_zero.mpr hq.ne'
  have h1 : a ^ ((p : ℝ) / (q : ℝ)) = (a ^ p) ^ ((1 : ℝ) / (q : ℝ)) := by
    rw [← Real.rpow_natCast a p, ← Real.rpow_mul ha, mul_one_div]
  have h2 : ((m ^ q : ℝ)) ^ ((1 : ℝ) / (q : ℝ)) = m := by
    rw [← Real.rpow_natCast m q, ← Real.rpow_mul hm, mul_one_div, div_self hq',
      Real.rpow_one]
  rw [h1, ← h2]
  exact Real.rpow_lt_rpow (pow_nonneg hm q) h (by positivity)

/-! ## Gamma/LUT compositor (`src/renderer/src/wgpu_renderer.rs`) -/

/-- One observable action of `WgpuRenderer::new` (`wgpu_renderer.rs` lines
28-118), in program order. `writeLutTexture` is the `queue.write_texture`
call that uploads the LUT data to the GPU. -/
inductive RInitEvent where
  | createRenderPipeline
  | createIntermediateTexture (w h : ℕ)
  | createLutTextureArray
  | writeLutTexture
  | createGammaBuffer
  | createBindGroup
  deriving DecidableEq, Repr

/-- A Rust `assert_eq!` failure (a panic). -/
inductive AssertError where
  | assertFailed
  deriving DecidableEq, Repr

/-- Outcome of `WgpuRenderer::new`: whether construction completed or
panicked, and the ordered trace of actions performed up to that point. -/
structure RInitOutcome where
  result : Except AssertError Unit
  events : List RInitEvent
  deriving Repr

/-- `WgpuRenderer::new` (`wgpu_renderer.rs` lines 28-118), keeping only the
observable action order. `width`/`height` are the window's inner size and
`lut` the dimensions of the externally supplied calibration LUT image, if
any. The source `assert_eq!(lut.width(), 256)` and
`assert_eq!(lut.height(), 256)` run while the LUT data vector is built,
before `queue.write_texture` uploads anything. -/
def wgpuRendererNew (width height : ℕ) (lut : Option (ℕ × ℕ)) : RInitOutcome :=
  let base := [RInitEvent.createRenderPipeline,
    RInitEvent.createIntermediateTexture width height,
    RInitEvent.createLutTextureArray]
  match lut with
  | some (w, h) =>
    if w = 256 then
      if h = 256 then
        { result := Except.ok ()
          events := base ++ [RInitEvent.writeLutTexture,
            RInitEvent.createGammaBuffer, RInitEvent.createBindGroup] }
      else { result := Except.error AssertError.assertFailed, events := base }
    else { result := Except.error AssertError.assertFailed, events := base }
  | none =>
    { result := Except.ok ()
      events := base ++ [RInitEvent.writeLutTexture,
        RInitEvent.createGammaBuffer, RInitEvent.createBindGroup] }

/-- A GPU texture of the compositor, identified by its dimensions and an
abstract content tag (so "rebuilt" and "contents unchanged" are both
expressible). -/
structure TextureM where
  width : ℕ
  height : ℕ
  contents : ℕ
  deriving DecidableEq, Repr

/-- `WgpuRenderer::create_texture` (`wgpu_renderer.rs` lines 163-178): a
fresh intermediate texture of the given dimensions (fresh contents tag `0`,
standing for the newly allocated, uninitialized texture). -/
def createTexture (w h : ℕ) : TextureM := ⟨w, h, 0⟩

/-- The compositor bind group models what `WgpuRenderer::create_bind_group`
(`wgpu_renderer.rs` lines 206-286) binds: the intermediate texture and the
LUT texture array. -/
structure BindGroupM where
  texture : TextureM
  lutTexture : TextureM
  deriving DecidableEq, Repr

/-- `WgpuRenderer::create_bind_group` (`wgpu_renderer.rs` lines 206-286). -/
def createBindGroup (texture lutTexture : TextureM) : BindGroupM :=
  ⟨texture, lutTexture⟩

/-- The `WgpuRenderer` fields touched by `resize`
(`wgpu_renderer.rs` lines 16-25). -/
structure WgpuRendererS where
  size : ℕ × ℕ
  texture : TextureM
  lutTextureArray : TextureM
  bindGroup : BindGroupM
  deriving DecidableEq, Repr

/-- `WgpuRenderer::resize` (`wgpu_renderer.rs` lines 156-161): set the new
size, recreate the intermediate texture at the new dimensions, recreate the
bind group from the new texture and the existing LUT texture array, and
reconfigure the surface. The LUT texture array is untouched. -/
def WgpuRendererS.resize (r : WgpuRendererS) (width height : ℕ) :
    WgpuRendererS :=
  { size := (width, height)
    texture := createTexture width height
    lutTextureArray := r.lutTextureArray
    bindGroup := createBindGroup (createTexture width height) r.lutTextureArray }

/-- The `WindowState` fields touched by `WindowState::resize`
(`window.rs` lines 112-160). -/
structure WindowStateS where
  size : ℕ × ℕ
  configSize : ℕ × ℕ
  wgpuRenderer : WgpuRendererS
  deriving DecidableEq, Repr

/-- `WindowState::resize` (`window.rs` lines 150-159): store the new size,
update the surface configuration, reconfigure the surface, and resize the
compositor. -/
def WindowStateS.resize (st : WindowStateS) (size : ℕ × ℕ) : WindowStateS :=
  { size := size
    configSize := size
    wgpuRenderer := st.wgpuRenderer.resize size.1 size.2 }

/-- `Window::size` (`window.rs` lines 468-472): returns the stored pixel
size of the window state. -/
def windowSize (st : WindowStateS) : ℕ × ℕ := st.size

/-! ## Stimulus hit test (`src/psydk/src/visual/stimuli/image.rs`)

The geometry module (`Size`, `Transformation2D`, `PhysicalScreen` evaluation)
is referenced by `image.rs` but its source is not under `src/`; the minimal
pieces the hit test needs are modelled from the spec below. -/

/-- Modelled from the spec: `PhysicalScreen` calibration, "pixel density
(px/mm) and viewing distance (mm); pure value type used to convert
device-independent size units ... to pixels". Only the pixel density is
needed here. -/
structure PhysicalScreenQ where
  pixelDensity : ℚ
  deriving DecidableEq, Repr

/-- Modelled from the spec: the `Size` unit type, "pixels | physical mm/cm |
degrees of visual angle | viewport-relative", "evaluated to pixels at draw
time using the window's current pixel size and PhysicalScreen calibration".
The geometry module is absent from `src/`; the pixel and millimeter variants
suffice for the hit-test claim (degrees and viewport-relative variants are
not needed and are omitted). -/
inductive SizeQ where
  | pixels (v : ℚ)
  | millimeters (v : ℚ)
  deriving DecidableEq, Repr

/-- Modelled from the spec: `Size` evaluation to pixels. A pixel value is
returned as-is; a millimeter value is converted through the screen's pixel
density (px/mm). -/
def SizeQ.eval (s : SizeQ) (_windowSize : ℕ × ℕ) (screen : PhysicalScreenQ) :
    ℚ :=
  match s with
  | SizeQ.pixels v => v
  | SizeQ.millimeters v => v * screen.pixelDensity

/-- A 3x3 matrix over `ℚ`, mirroring `nalgebra::Matrix3` as used by the hit
test. -/
structure Mat3 where
  m00 : ℚ
  m01 : ℚ
  m02 : ℚ
  m10 : ℚ
  m11 : ℚ
  m12 : ℚ
  m20 : ℚ
  m21 : ℚ
  m22 : ℚ
  deriving DecidableEq, Repr

/-- The identity 3x3 matrix. -/
def Mat3.idMat : Mat3 := ⟨1, 0, 0, 0, 1, 0, 0, 0, 1⟩

/-- Matrix-vector product `m * (x, y, w)`, mirroring
`trans_mat * nalgebra::Vector3::new(x, y, 1.0)` in `image.rs`. -/
def Mat3.apply (m : Mat3) (x y w : ℚ) : ℚ × ℚ × ℚ :=
  (m.m00 * x + m.m01 * y + m.m02 * w,
   m.m10 * x + m.m11 * y + m.m12 * w,
   m.m20 * x + m.m21 * y + m.m22 * w)

/-- Modelled from the spec: `Transformation2D`, a stimulus transformation
with an identity constructor (`Transformation2D::Identity()` in the source's
callers) that evaluates to a transformation matrix at the current window
size and calibration. The geometry module is absent from `src/`; the
identity variant evaluates to the identity matrix, and an arbitrary matrix
variant covers the general "current transform" case. -/
inductive Transformation2DQ where
  | identity
  | matrix (m : Mat3)
  deriving DecidableEq, Repr

/-- Modelled from the spec: `Transformation2D::eval` producing the 3x3
matrix applied to test points. -/
def Transformation2DQ.eval (t : Transformation2DQ) (_windowSize : ℕ × ℕ)
    (_screen : PhysicalScreenQ) : Mat3 :=
  match t with
  | Transformation2DQ.identity => Mat3.idMat
  | Transformation2DQ.matrix m => m

/-- The `ImageStimulus` fields read by its `contains` hit test
(`image.rs` lines 50-66 and 250-272). -/
structure ImageStimulusQ where
  x : SizeQ
  y : SizeQ
  width : SizeQ
  height : SizeQ
  transformation : Transformation2DQ
  deriving DecidableEq, Repr

/-- `ImageStimulus::contains` (`image.rs` lines 250-272): evaluate the
stimulus position and size to pixels, evaluate the current transformation,
apply it to the test point `(x, y, 1)`, and test the transformed point
against the axis-aligned rectangle `[ix, ix+width] x [iy, iy+height]`. -/
def ImageStimulusQ.contains (stim : ImageStimulusQ) (windowSize : ℕ × ℕ)
    (screen : PhysicalScreenQ) (x y : SizeQ) : Bool :=
  let ix := stim.x.eval windowSize screen
  let iy := stim.y.eval windowSize screen
  let width := stim.width.eval windowSize screen
  let height := stim.height.eval windowSize screen
  let transMat := stim.transformation.eval windowSize screen
  let px := x.eval windowSize screen
  let py := y.eval windowSize screen
  let pNew := transMat.apply px py 1
  decide (ix ≤ pNew.1 ∧ pNew.1 ≤ ix + width ∧ iy ≤ pNew.2.1 ∧
    pNew.2.1 ≤ iy + height)

/-! ## Claims -/

theorem rustRound_one : rustRound (1 : ℚ) = 1 := by
  simpa using rustRound_natCast 1

theorem rustRound_zero : rustRound (0 : ℚ) = 0 := by
  simpa using rustRound_natCast 0

theorem u32Cast_one : u32Cast 1 = 1 := by decide

theorem u32Cast_two : u32Cast 2 = 2 := by decide

/-- C3: for every combination of the other arguments, calling `present` with
both `repeat_frames = Some _` and `repeat_time = Some _` fails with a
`ParameterError`; the window state (frame-id counter, frame queue, callback
map) is unchanged and no GPU work is performed. -/
theorem present_both_repeat_args_error (st : WindowStateP) (stimuli : List ℕ)
    (n : ℕ) (t : ℚ) (pedantic : Option Bool) (configPedantic : Bool)
    (refreshRate : ℚ) (now : ℕ) :
    (present st stimuli (some n) (some t) pedantic configPedantic refreshRate
        now).result = Except.error (PsydkErrorM.parameterError
          "You can only specify one of repeat_frames or repeat_time") ∧
      (present st stimuli (some n) (some t) pedantic configPedantic
        refreshRate now).state = st ∧
      (present st stimuli (some n) (some t) pedantic configPedantic
        refreshRate now).events = [] := by
  refine ⟨?_, ?_, ?_⟩ <;> simp [present]

/-- C4: a successful `present` with `repeat_frames = Some n` and
`repeat_time = None` performs exactly `n` sequential
draw/compositor/present iterations, with the stimuli drawn into the scene
in the stimulus list's insertion order within each iteration; with both
repeat arguments `None`, exactly one iteration is performed. -/
theorem present_repeat_frames_iterations :
    (∀ (st : WindowStateP) (stimuli : List ℕ) (n : ℕ) (pedantic : Option Bool)
        (configPedantic : Bool) (refreshRate : ℚ) (now : ℕ), n < 2 ^ 32 →
      (present st stimuli (some n) none pedantic configPedantic refreshRate
          now).result = Except.ok (some now) ∧
        (present st stimuli (some n) none pedantic configPedantic refreshRate
          now).events = iterTraceRep (iterationEvents st.size stimuli) n) ∧
    (∀ (st : WindowStateP) (stimuli : List ℕ) (pedantic : Option Bool)
        (configPedantic : Bool) (refreshRate : ℚ) (now : ℕ),
      (present st stimuli none none pedantic configPedantic refreshRate
        now).events = iterationEvents st.size stimuli) := by
  constructor
  · intro st stimuli n pedantic configPedantic refreshRate now hn
    have hmin : min n 4294967295 = n := by omega
    refine ⟨?_, ?_⟩ <;>
      norm_num [present, rustRound_zero, rustRound_natCast, u32Cast, hmin]
  · intro st stimuli pedantic configPedantic refreshRate now
    norm_num [present, rustRound_zero, rustRound_one, rustRound_natCast,
      u32Cast_one, iterTraceRep]

/-- Witness for C4 at `n = 5` on a fresh 800x600 window with two stimuli. -/
theorem present_repeat_frames_iterations_witness :
    (5 : ℕ) < 2 ^ 32 ∧
      ((present ⟨(800, 600), [], [], 0⟩ [10, 20] (some 5) none none true 60
          0).result = Except.ok (some 0) ∧
        (present ⟨(800, 600), [], [], 0⟩ [10, 20] (some 5) none none true 60
          0).events = iterTraceRep (iterationEvents (800, 600) [10, 20]) 5) :=
  ⟨by norm_num,
    present_repeat_frames_iterations.1 ⟨(800, 600), [], [], 0⟩ [10, 20] 5 none
      true 60 0 (by norm_num)⟩

/-- C10: whenever `present` returns `Ok` on the non-dx12 path, the returned
onset timestamp is filled with the current time just before returning, so
`Ok(None)` is unreachable. -/
theorem present_ok_timestamp_isSome (st : WindowStateP) (stimuli : List ℕ)
    (repeat_frames : Option ℕ) (repeat_time : Option ℚ)
    (pedantic : Option Bool) (configPedantic : Bool) (refreshRate : ℚ)
    (now : ℕ) (o : Option ℕ) :
    (present st stimuli repeat_frames repeat_time pedantic configPedantic
        refreshRate now).result = Except.ok o → o = some now := by
  intro h
  unfold present at h
  repeat' split at h
  all_goals first
  | (norm_num [rustRound_zero] at h; exact h.symm)
  | simp at h

/-- Witness for C10: a default one-shot `present` call returns
`Ok(Some now)`. -/
theorem present_ok_timestamp_isSome_witness :
    (present ⟨(800, 600), [], [], 0⟩ [] none none none true 60 42).result
        = Except.ok (some 42) ∧ (some 42 : Option ℕ) = some 42 :=
  ⟨by norm_num [present, rustRound_zero],
    present_ok_timestamp_isSome ⟨(800, 600), [], [], 0⟩ []
      none none none true 60 42 (some 42)
      (by norm_num [present, rustRound_zero])⟩

/-- C1 (code behavior at the failing input): with refresh rate 60 Hz and
`repeat_time = 0.025` s the resolved frame count `3/2` is not within `1e-4`
of any integer, yet with `pedantic = true` the call succeeds and performs
`round(3/2) = 2` iterations. The source's pedantic check
(`window.rs` line 240) computes
`(f_repeat_frames - f_repeat_frames).round().abs()`, subtracting the value
from itself, so it can never fire. -/
theorem present_pedantic_check_dead :
    (∀ k : ℤ, 1 / 10000 < |(3 / 2 : ℚ) - (k : ℚ)|) ∧
      (present ⟨(800, 600), [], [], 0⟩ [7] none (some (1 / 40)) (some true)
          true 60 5).result = Except.ok (some 5) ∧
      (present ⟨(800, 600), [], [], 0⟩ [7] none (some (1 / 40)) (some true)
          true 60 5).events = iterTraceRep (iterationEvents (800, 600) [7]) 2
      := by
  refine ⟨?_, ?_, ?_⟩
  · intro k
    rcases le_or_lt k 1 with hk | hk
    · have hk' : (k : ℚ) ≤ 1 := by exact_mod_cast hk
      rw [abs_of_pos (by linarith)]
      linarith
    · have hk' : (2 : ℚ) ≤ (k : ℚ) := by exact_mod_cast hk
      rw [abs_of_nonpos (by linarith)]
      linarith
  · norm_num [present, rustRound_zero, rustRound_three_halves, u32Cast_two]
  · norm_num [present, rustRound_zero, rustRound_three_halves, u32Cast_two]

/-- C2 (code behavior): `last_frame_id` is initialized to `0` in `app.rs`
and never advanced by `present` (`window.rs` lines 256-258 compute
`last_frame_id + 1` and push it, but never store it back), so two
successive `present` calls on the same window both assign frame-id `1` and
the stored last-frame-id stays `0`. -/
theorem present_frame_id_not_advanced :
    (present ⟨(800, 600), [], [], 0⟩ [] none none none true 60
        0).state.frameQueue = [1] ∧
    (present ⟨(800, 600), [], [], 0⟩ [] none none none true 60
        0).state.lastFrameId = 0 ∧
    (present (present ⟨(800, 600), [], [], 0⟩ [] none none none true 60
        0).state [] none none none true 60 1).state.frameQueue = [1, 1] ∧
    (present (present ⟨(800, 600), [], [], 0⟩ [] none none none true 60
        0).state [] none none none true 60 1).state.lastFrameId = 0 := by
  refine ⟨?_, ?_, ?_, ?_⟩ <;>
    norm_num [present, rustRound_zero, rustRound_one, rustRound_natCast,
      u32Cast_one]

/-- C7: constructing the compositor with an externally supplied LUT image
whose dimensions are not exactly 256x256 fails with a hard validation error
(the source's `assert_eq!` panics), and the failure occurs before the
`queue.write_texture` call that uploads LUT data to the GPU. -/
theorem wgpuRendererNew_lut_dims_validated (width height w h : ℕ)
    (hwh : w ≠ 256 ∨ h ≠ 256) :
    (wgpuRendererNew width height (some (w, h))).result
        = Except.error AssertError.assertFailed ∧
      RInitEvent.writeLutTexture ∉
        (wgpuRendererNew width height (some (w, h))).events := by
  by_cases hw : w = 256
  · have hh : h ≠ 256 := by
      rcases hwh with hw' | hh'
      · exact absurd hw hw'
      · exact hh'
    subst hw
    constructor <;> simp [wgpuRendererNew, hh]
  · constructor <;> simp [wgpuRendererNew, hw]

/-- Witness for C7: a 128x128 LUT image is rejected before upload. -/
theorem wgpuRendererNew_lut_dims_validated_witness :
    ((128 : ℕ) ≠ 256 ∨ (128 : ℕ) ≠ 256) ∧
      ((wgpuRendererNew 800 600 (some (128, 128))).result
          = Except.error AssertError.assertFailed ∧
        RInitEvent.writeLutTexture ∉
          (wgpuRendererNew 800 600 (some (128, 128))).events) :=
  ⟨Or.inl (by norm_num),
    wgpuRendererNew_lut_dims_validated 800 600 128 128 (Or.inl (by norm_num))⟩

/-- C8: after resizing a window to `(W, H)`, `window.size()` is `(W, H)` and
the compositor's bound intermediate texture has dimensions `(W, H)`; the
resize rebuilds the intermediate texture and the bind group but leaves the
LUT texture (and its contents) unchanged. -/
theorem resize_updates_size_and_compositor (st : WindowStateS) (W H : ℕ) :
    windowSize (st.resize (W, H)) = (W, H) ∧
      (st.resize (W, H)).wgpuRenderer.texture.width = W ∧
      (st.resize (W, H)).wgpuRenderer.texture.height = H ∧
      (st.resize (W, H)).wgpuRenderer.bindGroup.texture.width = W ∧
      (st.resize (W, H)).wgpuRenderer.bindGroup.texture.height = H ∧
      (st.resize (W, H)).wgpuRenderer.texture = createTexture W H ∧
      (st.resize (W, H)).wgpuRenderer.bindGroup
        = createBindGroup (createTexture W H) st.wgpuRenderer.lutTextureArray ∧
      (st.resize (W, H)).wgpuRenderer.lutTextureArray
        = st.wgpuRenderer.lutTextureArray :=
  ⟨rfl, rfl, rfl, rfl, rfl, rfl, rfl, rfl⟩

/-- C9: the `contains(x, y)` hit test applies the stimulus's current
transform to the test point and checks the transformed point against the
stimulus rectangle; for a 100x100 image stimulus at `(0, 0)` under the
identity transform, `(0, 0)` is contained and `(1000, 1000)` is not. -/
theorem contains_applies_transform :
    (∀ (stim : ImageStimulusQ) (ws : ℕ × ℕ) (sc : PhysicalScreenQ)
        (x y : SizeQ),
      stim.contains ws sc x y = true ↔
        (stim.x.eval ws sc ≤
            ((stim.transformation.eval ws sc).apply (x.eval ws sc)
              (y.eval ws sc) 1).1 ∧
          ((stim.transformation.eval ws sc).apply (x.eval ws sc)
              (y.eval ws sc) 1).1 ≤ stim.x.eval ws sc + stim.width.eval ws sc ∧
          stim.y.eval ws sc ≤
            ((stim.transformation.eval ws sc).apply (x.eval ws sc)
              (y.eval ws sc) 1).2.1 ∧
          ((stim.transformation.eval ws sc).apply (x.eval ws sc)
              (y.eval ws sc) 1).2.1 ≤
            stim.y.eval ws sc + stim.height.eval ws sc)) ∧
    (∀ (ws : ℕ × ℕ) (sc : PhysicalScreenQ),
      (ImageStimulusQ.mk (SizeQ.pixels 0) (SizeQ.pixels 0) (SizeQ.pixels 100)
          (SizeQ.pixels 100) Transformation2DQ.identity).contains ws sc
        (SizeQ.pixels 0) (SizeQ.pixels 0) = true) ∧
    (∀ (ws : ℕ × ℕ) (sc : PhysicalScreenQ),
      (ImageStimulusQ.mk (SizeQ.pixels 0) (SizeQ.pixels 0) (SizeQ.pixels 100)
          (SizeQ.pixels 100) Transformation2DQ.identity).contains ws sc
        (SizeQ.pixels 1000) (SizeQ.pixels 1000) = false) := by
  refine ⟨?_, ?_, ?_⟩
  · intro stim ws sc x y
    simp [ImageStimulusQ.contains]
  · intro ws sc
    norm_num [ImageStimulusQ.contains, SizeQ.eval, Transformation2DQ.eval,
      Mat3.idMat, Mat3.apply]
  · intro ws sc
    norm_num [ImageStimulusQ.contains, SizeQ.eval, Transformation2DQ.eval,
      Mat3.idMat, Mat3.apply]

/-- C5 counterexample: the tuple color form is taken as already linear
(`LinRgba::new`) while the CSS form is sRGB-decoded, so a 3-tuple
`(0.04, 0.04, 0.04)` and a CSS color parsing to the same channels do not
normalize to the same internal linear RGBA value. -/
theorem extract_bound_tuple_ne_css :
    extract_bound (PyColorInput.tuple3 0.04 0.04 0.04)
      ≠ extract_bound (PyColorInput.cssColor ⟨0.04, 0.04, 0.04, 1⟩) := by
  intro hEq
  have hr := congrArg LinRgba.r hEq
  simp only [extract_bound, LinRgba.new, LinRgba.fromStr, srgb_to_lin_rgb]
    at hr
  rw [if_pos (by norm_num : (0.04 : ℝ) ≤ 0.04045)] at hr
  norm_num at hr

/-- C5 amended: all three accepted color input forms normalize to the
internal linear RGBA representation, but only the CSS string form is
sRGB-decoded; the direct value and the tuple forms are taken as already
linear (alpha defaulting to `1.0` for a 3-tuple), so the tuple form agrees
with a CSS string carrying the same channels exactly when the sRGB decode
fixes each channel. -/
theorem extract_bound_normalization :
    (∀ r g b a : ℝ, extract_bound (PyColorInput.tuple4 r g b a)
        = LinRgba.new r g b a) ∧
    (∀ r g b : ℝ, extract_bound (PyColorInput.tuple3 r g b)
        = LinRgba.new r g b 1) ∧
    (∀ p : CssParsed, extract_bound (PyColorInput.cssColor p)
        = LinRgba.new (srgb_to_lin_rgb p.r) (srgb_to_lin_rgb p.g)
            (srgb_to_lin_rgb p.b) p.a) ∧
    (∀ r g b : ℝ, srgb_to_lin_rgb r = r → srgb_to_lin_rgb g = g →
      srgb_to_lin_rgb b = b →
        extract_bound (PyColorInput.tuple3 r g b)
          = extract_bound (PyColorInput.cssColor ⟨r, g, b, 1⟩)) := by
  refine ⟨fun r g b a => rfl, fun r g b => rfl, fun p => rfl, ?_⟩
  intro r g b hr hg hb
  simp [extract_bound, LinRgba.fromStr, LinRgba.new, hr, hg, hb]

/-- Witness for C5 (amended): channel value `0` is fixed by the sRGB decode,
so the tuple `(0, 0, 0)` and a CSS black normalize identically. -/
theorem extract_bound_normalization_witness :
    srgb_to_lin_rgb 0 = 0 ∧
      extract_bound (PyColorInput.tuple3 0 0 0)
        = extract_bound (PyColorInput.cssColor ⟨0, 0, 0, 1⟩) := by
  have h0 : srgb_to_lin_rgb 0 = 0 := by
    unfold srgb_to_lin_rgb
    rw [if_pos (by norm_num)]
    norm_num
  exact ⟨h0, extract_bound_normalization.2.2.2 0 0 0 h0 h0 h0⟩

/-- C6: for every channel value `c` in `[0, 1]`, encoding a decoded value
round-trips within `1e-4`: `lin2srgb (srgb_to_lin_rgb c)` is within `1e-4`
of `c`, where the decode uses threshold `0.04045` and the encode threshold
`0.0031308` (exact real arithmetic; the round trip is exact except on the
sliver where the two thresholds disagree, which stays well inside the
tolerance). -/
theorem srgb_transfer_roundtrip (c : ℝ) (h0 : 0 ≤ c) (h1 : c ≤ 1) :
    |lin2srgb (srgb_to_lin_rgb c) - c| ≤ 0.0001 := by
  unfold srgb_to_lin_rgb lin2srgb
  by_cases hA : c ≤ 0.04045
  · rw [if_pos hA]
    by_cases hA1 : c / 12.92 ≤ 0.0031308
    · rw [if_pos hA1]
      have hc : (12.92 : ℝ) * (c / 12.92) = c := by field_simp
      rw [hc, sub_self, abs_zero]
      norm_num
    · rw [if_neg hA1]
      push_neg at hA1
      have hlin0 : (0 : ℝ) ≤ c / 12.92 := by positivity
      have hexp : (1 : ℝ) / 2.4 = ((5 : ℕ) : ℝ) / ((12 : ℕ) : ℝ) := by
        norm_num
      rw [hexp]
      have hub : c / 12.92 ≤ 0.04045 / 12.92 :=
        (div_le_div_iff_of_pos_right (by norm_num)).mpr hA
      have hlow : (0.0904 : ℝ) ≤ (c / 12.92) ^ (((5 : ℕ) : ℝ) / ((12 : ℕ) : ℝ))
          := by
        apply le_rpow_ratio hlin0 (by norm_num) (by norm_num)
        calc (0.0904 : ℝ) ^ (12 : ℕ) ≤ (0.0031308 : ℝ) ^ (5 : ℕ) := by
              norm_num
          _ ≤ (c / 12.92) ^ (5 : ℕ) := pow_le_pow_left₀ (by norm_num) hA1.le 5
      have hhigh : (c / 12.92) ^ (((5 : ℕ) : ℝ) / ((12 : ℕ) : ℝ)) ≤ 0.0905
          := by
        apply rpow_ratio_le hlin0 (by norm_num) (by norm_num)
        calc (c / 12.92) ^ (5 : ℕ) ≤ ((0.04045 : ℝ) / 12.92) ^ (5 : ℕ) :=
              pow_le_pow_left₀ hlin0 hub 5
          _ ≤ (0.0905 : ℝ) ^ (12 : ℕ) := by norm_num
      have hclo : (0.0031308 : ℝ) * 12.92 < c := by
        have h := hA1
        rw [lt_div_iff₀ (by norm_num : (0 : ℝ) < 12.92)] at h
        exact h
      rw [abs_le]
      constructor
      · linarith [hlow]
      · linarith [hhigh]
  · rw [if_neg hA]
    push_neg at hA
    have hx0 : (0 : ℝ) ≤ (c + 0.055) / 1.055 :=
      div_nonneg (by linarith) (by norm_num)
    have hxlb : (0.09545 : ℝ) / 1.055 ≤ (c + 0.055) / 1.055 :=
      (div_le_div_iff_of_pos_right (by norm_num)).mpr (by linarith)
    have hexp24 : (2.4 : ℝ) = ((12 : ℕ) : ℝ) / ((5 : ℕ) : ℝ) := by norm_num
    have hbranch : ¬ ((c + 0.055) / 1.055) ^ (2.4 : ℝ) ≤ 0.0031308 := by
      push_neg
      rw [hexp24]
      apply lt_rpow_ratio hx0 (by norm_num) (by norm_num)
      calc (0.0031308 : ℝ) ^ (5 : ℕ)
          < ((0.09545 : ℝ) / 1.055) ^ (12 : ℕ) := by norm_num
        _ ≤ ((c + 0.055) / 1.055) ^ (12 : ℕ) :=
            pow_le_pow_left₀ (by norm_num) hxlb 12
    rw [if_neg hbranch]
    have key : (((c + 0.055) / 1.055) ^ (2.4 : ℝ)) ^ ((1 : ℝ) / 2.4)
        = (c + 0.055) / 1.055 := by
      rw [← Real.rpow_mul hx0,
        show (2.4 : ℝ) * (1 / 2.4) = 1 by norm_num, Real.rpow_one]
    rw [key]
    have hmul : (1.055 : ℝ) * ((c + 0.055) / 1.055) = c + 0.055 := by
      field_simp
    rw [hmul, show c + 0.055 - 0.055 - c = 0 by ring, abs_zero]
    norm_num

/-- Witness for C6 at `c = 1/2` (power branch on both sides). -/
theorem srgb_transfer_roundtrip_witness :
    (0 : ℝ) ≤ 1 / 2 ∧ (1 / 2 : ℝ) ≤ 1 ∧
      |lin2srgb (srgb_to_lin_rgb (1 / 2)) - 1 / 2| ≤ 0.0001 :=
  ⟨by norm_num, by norm_num,
    srgb_transfer_roundtrip (1 / 2) (by norm_num) (by norm_num)⟩

end Psydk
